import Mathlib

/-!
Verification development for the green-software static analyzer.

This file gives a shallow embedding of the core of the analyzer:

* `PyDetect`  — the Python structural detector `PythonViolationDetector`
  (src/core/detectors.py), embedded as a state-passing visitor over a
  faithful subset of the Python AST (the node kinds the visitor dispatches
  on: `For`, `While`, `If`, `Assign`, `AugAssign`, `Expr` statements, and
  the expressions `Constant`, `Name`, `BinOp`(+), `Compare`(in/not-in),
  `Call` on a plain name, and list/set/dict literals).
* `Analyzer`  — `ComplexityMetrics.calculate_complexity_score`,
  `EmissionAnalyzer.estimate_emissions` and
  `EmissionAnalyzer.get_per_line_emissions` (src/core/analyzer.py),
  with Python floats modelled as rationals.
* `Tracking`  — `NoOpTracker.stop` / `ProfilingTracker.stop`
  (src/core/tracking.py).
* `Progress`  — the sequence of percentage values `Scanner.scan`
  (src/core/scanner.py) passes to its progress callback.
-/

namespace PyDetect

/-- One raw violation record as appended to `self.violations` by the
detectors: rule id, line number, heuristic severity, human message. -/
structure Finding where
  id : String
  line : Nat
  severity : String
  message : String
deriving DecidableEq, Repr

/-- Subset of the Python expression AST used by the detector, each node
carrying its source line (`lineno`). `call` covers calls whose `func` is a
plain `ast.Name`; `compareIn` covers `ast.Compare` with a single `In`/`NotIn`
operator and a single comparator. -/
inductive Expr where
  | constInt (line : Nat) (value : Int)
  | constStr (line : Nat) (value : String)
  | constBool (line : Nat) (value : Bool)
  | name (line : Nat) (ident : String)
  | binAdd (line : Nat) (left right : Expr)
  | compareIn (line : Nat) (negated : Bool) (left comparator : Expr)
  | call (line : Nat) (func : String) (args : List Expr)
  | listLit (line : Nat) (elts : List Expr)
  | setLit (line : Nat) (elts : List Expr)
  | dictLit (line : Nat) (elts : List Expr)

/-- Subset of the Python statement AST used by the detector. `assign` and
`augAdd` have a single `ast.Name` target; `augAdd` is `AugAssign` with the
`Add` operator. `forStmt`/`ifStmt` carry no `orelse` part. -/
inductive Stmt where
  | forStmt (line : Nat) (target : String) (iter : Expr) (body : List Stmt)
  | whileStmt (line : Nat) (test : Expr) (body : List Stmt)
  | ifStmt (line : Nat) (test : Expr) (body : List Stmt)
  | assign (line : Nat) (target : String) (value : Expr)
  | augAdd (line : Nat) (target : String) (value : Expr)
  | exprStmt (line : Nat) (expr : Expr)
  | passStmt (line : Nat)

/-- Visitor state: `current_depth`, `in_loop`, `var_types`,
`used_variables`, `unused_variables` and the accumulated violations of
`PythonViolationDetector`. -/
structure VState where
  currentDepth : Nat
  inLoop : Bool
  varTypes : List (String × String)
  usedVariables : List String
  unusedVariables : List (String × Nat)
  violations : List Finding

/-- Fresh visitor state (`PythonViolationDetector.__init__`). -/
def initState : VState := ⟨0, false, [], [], [], []⟩

/-- Python-dict style update: replace the value at the key, keeping its
position, or append the pair at the end. -/
def setKey {α : Type} : List (String × α) → String → α → List (String × α)
  | [], k, v => [(k, v)]
  | (k', v') :: rest, k, v =>
      if k' = k then (k, v) :: rest else (k', v') :: setKey rest k v

/-- Python-dict style lookup (`dict.get`). -/
def getKey {α : Type} (m : List (String × α)) (k : String) : Option α :=
  (m.find? (fun p => p.1 == k)).map (·.2)

/-- Python-set style insertion for `used_variables`. -/
def addUsed (s : List String) (x : String) : List String :=
  if x ∈ s then s else x :: s

/-- Append one finding to `self.violations`. -/
def addViolation (st : VState) (f : Finding) : VState :=
  { st with violations := st.violations ++ [f] }

/-- Substring test, mirroring the Python `in` operator on strings. -/
def strContains (s pat : String) : Bool :=
  (List.range (s.length + 1)).any (fun i => pat.toList.isPrefixOf (s.toList.drop i))

/-- ASCII lower-casing of one character. -/
def charLower (c : Char) : Char :=
  if 65 ≤ c.toNat ∧ c.toNat ≤ 90 then Char.ofNat (c.toNat + 32) else c

/-- ASCII lower-casing, mirroring Python's `str.lower()` on the ASCII
`ast.dump` text it is applied to. -/
def pyLower (s : String) : String := String.mk (s.toList.map charLower)

/-- The `var_name.startswith` underscore test of `_detect_unused_variables`. -/
def startsWithUnderscore (s : String) : Bool :=
  match s.toList with
  | c :: _ => c == '_'
  | [] => false

/-- The `io_patterns` list of `_check_io_in_loop`. -/
def ioPatterns : List String := ["open", "read", "write", "requests", "urlopen"]

/-- The `redundant_funcs` list of `_check_unnecessary_computation`. -/
def redundantFuncs : List String := ["len", "range", "re.compile", "datetime.now", "time.time"]

/-- The `blocking_io` list of `visit_Call`. -/
def blockingIoFuncs : List String := ["requests.get", "urlopen", "time.sleep"]

/-- Message of the nested-loop findings, embedding the depth as an
exponent (`visit_For` / `visit_While`). -/
def nestingMessage (d : Nat) : String :=
  "Nesting depth " ++ toString d ++ ": O(n^" ++ toString d ++ ") complexity detected."

/-- The `no_n2_algorithms` finding of `visit_For` at depth `d`. -/
def n2Finding (d line : Nat) : Finding :=
  ⟨"no_n2_algorithms", line, if 3 ≤ d then "critical" else "major", nestingMessage d⟩

/-- The `excessive_nesting_depth` finding of `visit_While` at depth `d`. -/
def whileNestingFinding (d line : Nat) : Finding :=
  ⟨"excessive_nesting_depth", line, "critical", nestingMessage d⟩

/-- The `no_infinite_loops` finding of `visit_While`. -/
def infiniteLoopFinding (line : Nat) : Finding :=
  ⟨"no_infinite_loops", line, "critical",
   "Infinite loop detected (while True). Ensure break condition exists."⟩

/-- The `inefficient_loop` finding of `visit_For` for `range(len(...))`. -/
def rangeLenFinding (line : Nat) : Finding :=
  ⟨"inefficient_loop", line, "major",
   "Using range(len(sequence)) is inefficient. Use enumerate() or zip()."⟩

/-- The `string_concatenation_in_loop` finding of `visit_Assign` /
`visit_AugAssign`. -/
def stringConcatFinding (line : Nat) : Finding :=
  ⟨"string_concatenation_in_loop", line, "medium",
   "String concatenation in loop creates O(n²) memory allocations. Use list.append() and \"\".join()."⟩

/-- The `magic_numbers` finding of `visit_Constant`. -/
def magicNumberFinding (line : Nat) (v : Int) : Finding :=
  ⟨"magic_numbers", line, "minor",
   "Magic number \"" ++ toString v ++ "\" usage. Use named constants."⟩

/-- The `blocking_io` finding of `visit_Call`. -/
def blockingIoFinding (line : Nat) (f : String) : Finding :=
  ⟨"blocking_io", line, "high",
   "Blocking I/O operation \"" ++ f ++ "()\". Consider async/await."⟩

/-- The `proper_resource_cleanup` finding of `visit_Call` (the
`_is_in_context_manager` helper always returns `False`). -/
def resourceLeakFinding (line : Nat) : Finding :=
  ⟨"proper_resource_cleanup", line, "high",
   "File opened without context manager. Use \"with open()\" to ensure closure."⟩

/-- The `excessive_logging` finding of `visit_Call` for `print`. -/
def printFinding (line : Nat) : Finding :=
  ⟨"excessive_logging", line, "minor",
   "Usage of \"print\" detected. Use logging module or remove in production."⟩

/-- The `heavy_object_copy` finding of `visit_Call`. -/
def deepcopyFinding (line : Nat) : Finding :=
  ⟨"heavy_object_copy", line, "major",
   "Usage of deepcopy detected. This is computationally expensive."⟩

/-- The `process_spawning` finding of `visit_Call`. -/
def processSpawnFinding (line : Nat) : Finding :=
  ⟨"process_spawning", line, "critical",
   "Process spawning detected. High OS overhead."⟩

/-- The `io_in_loop` finding of `_check_io_in_loop`. -/
def ioInLoopFinding (line : Nat) (f : String) : Finding :=
  ⟨"io_in_loop", line, "critical",
   "I/O operation \"" ++ f ++ "()\" in loop. Each call costs 100-1000x more energy."⟩

/-- The `unnecessary_computation` finding of `_check_unnecessary_computation`. -/
def redundantCompFinding (line : Nat) (f : String) : Finding :=
  ⟨"unnecessary_computation", line, "critical",
   "Redundant computation \"" ++ f ++ "()\" in loop. Move outside for O(1) impact."⟩

/-- The `inefficient_lookup` finding of `_check_inefficient_lookups`. -/
def inefficientLookupFinding (line : Nat) (n : String) : Finding :=
  ⟨"inefficient_lookup", line, "medium",
   "Membership test on \"" ++ n ++ "\" inside loop. If it is a list, consider converting to a set for O(1) lookup."⟩

/-- The `unused_variables` finding of `_detect_unused_variables`. -/
def unusedVariableFinding (line : Nat) (v : String) : Finding :=
  ⟨"unused_variables", line, "medium",
   "Unused variable \"" ++ v ++ "\". Remove to free memory."⟩

mutual
/-- All nodes of an expression subtree, the node itself first (the
expression fragment of `ast.walk`; the detector's walk-based checks only
pattern-match individual nodes, so the node order is irrelevant to them). -/
def Expr.walk : Expr → List Expr
  | e@(.constInt _ _) => [e]
  | e@(.constStr _ _) => [e]
  | e@(.constBool _ _) => [e]
  | e@(.name _ _) => [e]
  | e@(.binAdd _ l r) => e :: (l.walk ++ r.walk)
  | e@(.compareIn _ _ l c) => e :: (l.walk ++ c.walk)
  | e@(.call _ _ args) => e :: exprsWalk args
  | e@(.listLit _ es) => e :: exprsWalk es
  | e@(.setLit _ es) => e :: exprsWalk es
  | e@(.dictLit _ es) => e :: exprsWalk es

/-- Walk of a list of expressions. -/
def exprsWalk : List Expr → List Expr
  | [] => []
  | e :: es => e.walk ++ exprsWalk es
end

mutual
/-- All expression nodes in a statement subtree (the expression content of
`ast.walk` on the statement). -/
def Stmt.walkExprs : Stmt → List Expr
  | .forStmt _ _ iter body => iter.walk ++ stmtsWalkExprs body
  | .whileStmt _ test body => test.walk ++ stmtsWalkExprs body
  | .ifStmt _ test body => test.walk ++ stmtsWalkExprs body
  | .assign _ _ value => value.walk
  | .augAdd _ _ value => value.walk
  | .exprStmt _ e => e.walk
  | .passStmt _ => []

/-- Walk of a list of statements. -/
def stmtsWalkExprs : List Stmt → List Expr
  | [] => []
  | s :: ss => s.walkExprs ++ stmtsWalkExprs ss
end

/-- One step of `_check_inefficient_lookups`: a membership test whose
comparator is a bare name not locally inferred as set/dict
(`var_types` ≠ `efficient`) is flagged. -/
def lookupFindingOf (varTypes : List (String × String)) : Expr → List Finding
  | .compareIn line _ _ (.name _ n) =>
      if getKey varTypes n = some "efficient" then []
      else [inefficientLookupFinding line n]
  | _ => []

/-- `_check_inefficient_lookups` over the walked loop subtree. -/
def inefficientLookupFindings (varTypes : List (String × String)) (walked : List Expr) :
    List Finding :=
  walked.flatMap (lookupFindingOf varTypes)

/-- One step of `_check_io_in_loop`: a call to a known I/O primitive. -/
def ioFindingOf : Expr → List Finding
  | .call line f _ => if f ∈ ioPatterns then [ioInLoopFinding line f] else []
  | _ => []

/-- `_check_io_in_loop` over the walked loop subtree. -/
def ioInLoopFindings (walked : List Expr) : List Finding :=
  walked.flatMap ioFindingOf

/-- One step of `_check_unnecessary_computation`: a call to a known
redundant-per-iteration operation. -/
def redundantCompFindingOf : Expr → List Finding
  | .call line f _ => if f ∈ redundantFuncs then [redundantCompFinding line f] else []
  | _ => []

/-- `_check_unnecessary_computation` over the walked loop subtree. -/
def redundantComputationFindings (walked : List Expr) : List Finding :=
  walked.flatMap redundantCompFindingOf

/-- Truthiness test of `visit_While`: `test.value is True` for a constant,
or a name whose id is the string `True`. -/
def isInfiniteTest : Expr → Bool
  | .constBool _ b => b
  | .name _ n => n == "True"
  | _ => false

/-- The `range(len(...))` shape test of `visit_For`. -/
def isRangeLen : Expr → Bool
  | .call _ f args =>
      f == "range" &&
      (match args with
       | [.call _ g _] => g == "len"
       | _ => false)
  | _ => false

/-- Shape test for `ast.BinOp` with `ast.Add`. -/
def isBinAdd : Expr → Bool
  | .binAdd _ _ _ => true
  | _ => false

/-- Does the expression subtree mention the name `n` (the RHS walk of the
string-accumulation check in `visit_Assign`)? -/
def mentionsName (e : Expr) (n : String) : Bool :=
  e.walk.any fun c =>
    match c with
    | .name _ m => m == n
    | _ => false

/-- The local type inference of `visit_Assign`: a list literal or `list()`
call infers `list`; a set/dict literal or `set()`/`dict()` call infers
`efficient`; a string constant infers `str`. -/
def inferredKind : Expr → Option String
  | .listLit _ _ => some "list"
  | .call _ f _ =>
      if f == "list" then some "list"
      else if f == "set" || f == "dict" then some "efficient"
      else none
  | .setLit _ _ => some "efficient"
  | .dictLit _ _ => some "efficient"
  | .constStr _ _ => some "str"
  | _ => none

/-- The process-spawning test of `visit_Call` for a plain-name callee `f`:
the code checks the `ast.dump` text of the func node for the substrings
`subprocess`, `os.system`, `popen` (the dump of a `Name` is
`Name(id=` quote `f` quote `, ctx=Load())`, whose fixed part contains none
of the three and, containing no quote, admits no match across the
boundary, so the check reduces to substring tests on `f`), and then
requires the name to be one of `system`, `popen`, `spawn`. -/
def processSpawnCond (f : String) : Bool :=
  (strContains f "subprocess" || strContains f "os.system" ||
   strContains (pyLower f) "popen") &&
  (f == "system" || f == "popen" || f == "spawn")

/-- The blocking-I/O test of `visit_Call`: membership in `blocking_io` or a
`.`-qualified suffix match. -/
def blockingIoCond (f : String) : Bool :=
  blockingIoFuncs.contains f ||
  blockingIoFuncs.any (fun b => (("." ++ b).toList).isSuffixOf f.toList)

/-- The findings `visit_Call` appends for a call to the plain name `f`, in
the order the Python code checks them: blocking I/O, resource cleanup,
print logging, deepcopy, process spawning. -/
def callFindings (line : Nat) (f : String) : List Finding :=
  (if blockingIoCond f then [blockingIoFinding line f] else []) ++
  (if f = "open" then [resourceLeakFinding line] else []) ++
  (if f = "print" then [printFinding line] else []) ++
  (if f = "deepcopy" then [deepcopyFinding line] else []) ++
  (if processSpawnCond f then [processSpawnFinding line] else [])

/-- The `is_string_op` test of `visit_AugAssign`: the target is inferred
`str`, or the value is a string constant, or the value is a name inferred
`str`. -/
def augAddIsString (varTypes : List (String × String)) (target : String) (value : Expr) : Bool :=
  (getKey varTypes target == some "str") ||
  (match value with
   | .constStr _ _ => true
   | .name _ n => getKey varTypes n == some "str"
   | _ => false)

/-- The string-accumulation test of `visit_Assign`: inside a loop, the
value is an `Add` binop, the target is inferred `str`, and the target name
occurs in the walked right-hand side. -/
def assignIsStringAccum (inLoop : Bool) (varTypes : List (String × String))
    (target : String) (value : Expr) : Prop :=
  inLoop = true ∧ isBinAdd value = true ∧ getKey varTypes target = some "str" ∧
    mentionsName value target = true

instance (inLoop : Bool) (varTypes : List (String × String)) (target : String) (value : Expr) :
    Decidable (assignIsStringAccum inLoop varTypes target value) := by
  unfold assignIsStringAccum
  infer_instance

/-- The new binding `visit_Assign` gives `var_types` for the target. -/
def assignVarTypes (varTypes : List (String × String)) (target : String) (value : Expr) :
    List (String × String) :=
  match inferredKind value with
  | some k => setKey varTypes target k
  | none => varTypes

/-- The state `visit_Call` hands to `generic_visit` for a call to the
plain name `f`: the callee inserted into `used_variables` (once by
`visit_Call`, once more when `generic_visit` reaches the `Name` node) and
the call findings appended. -/
def callEntry (line : Nat) (f : String) (st : VState) : VState :=
  { st with
    usedVariables := addUsed (addUsed st.usedVariables f) f,
    violations := st.violations ++ callFindings line f }

/-- The state `visit_For` hands to `generic_visit`: depth incremented,
`in_loop` set, and the nesting, `range(len)`, lookup, I/O and redundant
computation findings appended in the Python order. -/
def forEntry (line : Nat) (iter : Expr) (body : List Stmt) (st : VState) : VState :=
  { st with
    currentDepth := st.currentDepth + 1,
    inLoop := true,
    violations := st.violations ++
      (if 2 ≤ st.currentDepth + 1 then [n2Finding (st.currentDepth + 1) line] else []) ++
      (if isRangeLen iter then [rangeLenFinding line] else []) ++
      inefficientLookupFindings st.varTypes (iter.walk ++ stmtsWalkExprs body) ++
      ioInLoopFindings (iter.walk ++ stmtsWalkExprs body) ++
      redundantComputationFindings (iter.walk ++ stmtsWalkExprs body) }

/-- The state `visit_While` hands to `generic_visit`: depth incremented,
`in_loop` set, and the unconditional-loop, nesting, I/O and redundant
computation findings appended in the Python order. -/
def whileEntry (line : Nat) (test : Expr) (body : List Stmt) (st : VState) : VState :=
  { st with
    currentDepth := st.currentDepth + 1,
    inLoop := true,
    violations := st.violations ++
      (if isInfiniteTest test then [infiniteLoopFinding line] else []) ++
      (if 3 ≤ st.currentDepth + 1 then [whileNestingFinding (st.currentDepth + 1) line] else []) ++
      ioInLoopFindings (test.walk ++ stmtsWalkExprs body) ++
      redundantComputationFindings (test.walk ++ stmtsWalkExprs body) }

/-- The loop epilogue: restore `in_loop` to its saved value and decrement
the depth. -/
def restoreLoop (prevInLoop : Bool) (exit : VState) : VState :=
  { exit with inLoop := prevInLoop, currentDepth := exit.currentDepth - 1 }

/-- The `visit_If` epilogue: decrement the depth. -/
def popDepth (exit : VState) : VState :=
  { exit with currentDepth := exit.currentDepth - 1 }

/-- The state `visit_Assign` hands to `generic_visit`: the
string-accumulation finding (when triggered), the unused-variable
tracking, and the inferred-kind update of `var_types`. -/
def assignEntry (line : Nat) (target : String) (value : Expr) (st : VState) : VState :=
  { st with
    violations := st.violations ++
      (if assignIsStringAccum st.inLoop st.varTypes target value
       then [stringConcatFinding line] else []),
    unusedVariables := setKey st.unusedVariables target line,
    varTypes := assignVarTypes st.varTypes target value }

/-- The state `visit_AugAssign` hands to `generic_visit`. -/
def augAddEntry (line : Nat) (target : String) (value : Expr) (st : VState) : VState :=
  { st with
    violations := st.violations ++
      (if st.inLoop ∧ augAddIsString st.varTypes target value = true
       then [stringConcatFinding line] else []) }

mutual
/-- The expression part of the visitor: `visit_Constant` (magic numbers),
`visit_Name` (used-variable tracking), `visit_BinOp` (generic), `visit_Call`
(via `callEntry`), and generic visits of the remaining expression kinds. -/
def visitExpr : Expr → VState → VState
  | .constInt line v, st =>
      if 100 < v ∧ v ∉ ([1000, 1024, 60, 3600] : List Int) then
        addViolation st (magicNumberFinding line v)
      else st
  | .constStr _ _, st => st
  | .constBool _ _, st => st
  | .name _ n, st => { st with usedVariables := addUsed st.usedVariables n }
  | .binAdd _ l r, st => visitExpr r (visitExpr l st)
  | .compareIn _ _ l c, st => visitExpr c (visitExpr l st)
  | .call line f args, st => visitExprs args (callEntry line f st)
  | .listLit _ es, st => visitExprs es st
  | .setLit _ es, st => visitExprs es st
  | .dictLit _ es, st => visitExprs es st

/-- Sequential visit of a list of expressions. -/
def visitExprs : List Expr → VState → VState
  | [], st => st
  | e :: es, st => visitExprs es (visitExpr e st)
end

mutual
/-- The statement part of the visitor: `visit_For`, `visit_While`,
`visit_If`, `visit_Assign`, `visit_AugAssign`, and generic visits. Each
loop case builds its entry state, generic-visits the iterator/test and
the body, and restores `in_loop` and the depth. -/
def visitStmt : Stmt → VState → VState
  | .forStmt line _ iter body, st =>
      restoreLoop st.inLoop (visitStmts body (visitExpr iter (forEntry line iter body st)))
  | .whileStmt line test body, st =>
      restoreLoop st.inLoop (visitStmts body (visitExpr test (whileEntry line test body st)))
  | .ifStmt _ test body, st =>
      popDepth (visitStmts body (visitExpr test { st with currentDepth := st.currentDepth + 1 }))
  | .assign line target value, st => visitExpr value (assignEntry line target value st)
  | .augAdd line target value, st => visitExpr value (augAddEntry line target value st)
  | .exprStmt _ e, st => visitExpr e st
  | .passStmt _, st => st

/-- Sequential visit of a list of statements. -/
def visitStmts : List Stmt → VState → VState
  | [], st => st
  | s :: ss, st => visitStmts ss (visitStmt s st)
end

/-- `_detect_unused_variables`: names assigned but never loaded, underscore
names exempt. -/
def unusedVariableFindings (used : List String) (unused : List (String × Nat)) : List Finding :=
  unused.flatMap fun p =>
    if p.1 ∈ used ∨ startsWithUnderscore p.1 = true then []
    else [unusedVariableFinding p.2 p.1]

/-- `PythonViolationDetector.detect_all` on a successfully parsed module:
run the visitor, then the unused-variable post-processing (the subset
language has no import statements, so `_detect_unused_imports` contributes
nothing). -/
def detectAll (moduleBody : List Stmt) : List Finding :=
  let st := visitStmts moduleBody initState
  st.violations ++ unusedVariableFindings st.usedVariables st.unusedVariables

/-- `PythonViolationDetector.detect_all` as a function of the parse result:
on a `SyntaxError` (`none`) the `try` block is abandoned before any visiting
and the `except SyntaxError: pass` handler returns the still-empty
violations list. -/
def detectAllFromParse : Option (List Stmt) → List Finding
  | none => []
  | some m => detectAll m

/-- Predicate selecting the unconditional-loop findings. -/
def isInfLoopId (f : Finding) : Bool := f.id == "no_infinite_loops"

/-- Predicate selecting the nested-for-loop findings. -/
def isN2Id (f : Finding) : Bool := f.id == "no_n2_algorithms"

mutual
/-- Specification-side collector: the `no_infinite_loops` findings a
statement subtree gives rise to — one critical finding at each `while`
whose condition passes `isInfiniteTest`, regardless of nesting. -/
def Stmt.infFindings : Stmt → List Finding
  | .whileStmt line test body =>
      (if isInfiniteTest test then [infiniteLoopFinding line] else []) ++ stmtsInfFindings body
  | .forStmt _ _ _ body => stmtsInfFindings body
  | .ifStmt _ _ body => stmtsInfFindings body
  | .assign _ _ _ => []
  | .augAdd _ _ _ => []
  | .exprStmt _ _ => []
  | .passStmt _ => []

/-- Collector `Stmt.infFindings` over a statement list. -/
def stmtsInfFindings : List Stmt → List Finding
  | [] => []
  | s :: ss => s.infFindings ++ stmtsInfFindings ss
end

mutual
/-- Specification-side collector: the `no_n2_algorithms` findings a
statement subtree gives rise to when entered at nesting depth `d` —
`for`, `while` and `if` all increment the depth, and each `for` at
resulting depth at least 2 is reported. -/
def Stmt.n2Findings (d : Nat) : Stmt → List Finding
  | .forStmt line _ _ body =>
      (if 2 ≤ d + 1 then [n2Finding (d + 1) line] else []) ++ stmtsN2Findings (d + 1) body
  | .whileStmt _ _ body => stmtsN2Findings (d + 1) body
  | .ifStmt _ _ body => stmtsN2Findings (d + 1) body
  | .assign _ _ _ => []
  | .augAdd _ _ _ => []
  | .exprStmt _ _ => []
  | .passStmt _ => []

/-- Collector `Stmt.n2Findings` over a statement list. -/
def stmtsN2Findings (d : Nat) : List Stmt → List Finding
  | [] => []
  | s :: ss => s.n2Findings d ++ stmtsN2Findings d ss
end

/-- Family of `d`-fold nested counted loops starting at line `l`:
`for i in xs:` at each level, a `pass` innermost; level `k` (1-based)
sits on line `l + k - 1`. -/
def nestedFors : Nat → Nat → List Stmt
  | 0, l => [Stmt.passStmt l]
  | k + 1, l => [Stmt.forStmt l "i" (Expr.name l "xs") (nestedFors k (l + 1))]

/-- Family for the loop-in-conditional-in-loop shape: an outer `for` on
line `l1`, an `if` on line `l2`, an inner `for` on line `l3` with a `pass`
body on line `l4`. -/
def forIfFor (l1 l2 l3 l4 : Nat) : List Stmt :=
  [Stmt.forStmt l1 "i" (Expr.name l1 "xs")
    [Stmt.ifStmt l2 (Expr.name l2 "c")
      [Stmt.forStmt l3 "j" (Expr.name l3 "ys")
        [Stmt.passStmt l4]]]]

/-- Membership-test-in-loop program, parameterised by the right-hand side
of the binding of `y`: `y = rhs` on line 1, then a loop whose body tests
`x in y` (inside an `if`, line 3). -/
def lookupProgram (rhs : Expr) : List Stmt :=
  [Stmt.assign 1 "y" rhs,
   Stmt.forStmt 2 "i" (Expr.name 2 "xs")
     [Stmt.ifStmt 3 (Expr.compareIn 3 false (Expr.name 3 "x") (Expr.name 3 "y"))
       [Stmt.passStmt 4]]]

/-- Accumulation program with plain assignment: `s = init` on line 1, then
a loop whose body runs `s = s + addend` on line 3. -/
def accumAssignProgram (init addend : Expr) : List Stmt :=
  [Stmt.assign 1 "s" init,
   Stmt.forStmt 2 "i" (Expr.name 2 "xs")
     [Stmt.assign 3 "s" (Expr.binAdd 3 (Expr.name 3 "s") addend)]]

/-- Accumulation program with augmented assignment: `s = init` on line 1,
then a loop whose body runs `s += addend` on line 3. -/
def accumAugProgram (init addend : Expr) : List Stmt :=
  [Stmt.assign 1 "s" init,
   Stmt.forStmt 2 "i" (Expr.name 2 "xs")
     [Stmt.augAdd 3 "s" addend]]

end PyDetect

namespace Analyzer

/-- The `ComplexityMetrics` dataclass (src/core/analyzer.py). Python floats
are modelled as rationals; the `recursive_functions` set enters every
computation only through its size and truthiness, so it is modelled by its
cardinality. -/
structure ComplexityMetrics where
  lines_of_code : ℕ
  cyclomatic_complexity : ℕ
  max_nesting_depth : ℕ
  function_count : ℕ
  class_count : ℕ
  recursive_function_count : ℕ
  memory_usage_estimate : ℚ
  loop_iterations_estimate : ℕ
  has_io_operations : Bool
  has_expensive_operations : Bool

/-- `ComplexityMetrics.calculate_complexity_score`: the capped 0-100
composite score — the sum of the capped LOC, cyclomatic, nesting, loop,
entity contributions, the two flat bonuses and the capped recursion
penalty, itself capped at 100. -/
def calculate_complexity_score (m : ComplexityMetrics) : ℚ :=
  min 100
    (min 20 ((m.lines_of_code : ℚ) / 1000 * 20) +
     min 25 ((m.cyclomatic_complexity : ℚ) / 50 * 25) +
     min 15 ((m.max_nesting_depth : ℚ) / 10 * 15) +
     min 20 ((m.loop_iterations_estimate : ℚ) / 100000 * 20) +
     min 10 (((m.function_count : ℚ) + (m.class_count : ℚ)) / 100 * 10) +
     (if m.has_io_operations then 5 else 0) +
     (if m.has_expensive_operations then 5 else 0) +
     (if m.recursive_function_count ≠ 0 then min 10 ((m.recursive_function_count : ℚ) * 2) else 0))

/-- `BASELINE_CO2_PER_1000_LINES = 0.0000001`. -/
def baselinePer1000Lines : ℚ := 1 / 10000000

/-- `COMPLEXITY_SCORE_MULTIPLIER = 0.00000001`, also the per-unit factor of
the loop, memory and recursion terms, and the floor value. -/
def epsilonEmission : ℚ := 1 / 100000000

/-- `EmissionAnalyzer.estimate_emissions`: weighted sum of the baseline,
complexity-score, loop, I/O, memory, recursion and expensive-operation
terms, scaled by the calibration coefficient and floored at the epsilon. -/
def estimate_emissions (calibration_coefficient : ℚ) (m : ComplexityMetrics) : ℚ :=
  max
    (((m.lines_of_code : ℚ) / 1000 * baselinePer1000Lines +
      calculate_complexity_score m / 100 * epsilonEmission +
      (m.loop_iterations_estimate : ℚ) / 100000 * epsilonEmission +
      (if m.has_io_operations then baselinePer1000Lines else 0) +
      m.memory_usage_estimate / 100 * epsilonEmission +
      (if m.recursive_function_count ≠ 0 then (m.recursive_function_count : ℚ) * epsilonEmission else 0) +
      (if m.has_expensive_operations then epsilonEmission else 0)) * calibration_coefficient)
    epsilonEmission

/-- One scan issue as seen by `EmissionAnalyzer.get_per_line_emissions`:
its severity string and the mutable `codebase_emissions` share. -/
structure ScanIssue where
  severity : String
  codebase_emissions : ℚ
deriving DecidableEq

/-- The `severity_weights` table with its `.get(…, 1)` default:
high=3, medium=2, low=1, anything else 1. -/
def severityWeight (s : String) : ℚ :=
  if s = "high" then 3 else if s = "medium" then 2 else if s = "low" then 1 else 1

/-- Total weight of an issue list. -/
def totalWeight (issues : List ScanIssue) : ℚ :=
  (issues.map (fun i => severityWeight i.severity)).sum

/-- `EmissionAnalyzer.get_per_line_emissions`: on an empty issue list or a
zero total, every share is set to zero; otherwise each issue receives the
weight-proportional share of the total. -/
def get_per_line_emissions (issues : List ScanIssue) (total_emissions : ℚ) : List ScanIssue :=
  if issues = [] ∨ total_emissions = 0 then
    issues.map (fun i => { i with codebase_emissions := 0 })
  else
    let tw := totalWeight issues
    issues.map (fun i =>
      { i with codebase_emissions :=
          if 0 < tw then severityWeight i.severity / tw * total_emissions else 0 })

end Analyzer

namespace Tracking

/-- The dictionary returned by a tracker's `stop()`. The field
`duration_seconds` is an `Option`: `none` models the key being absent from
the returned Python dict. -/
structure TrackerReading where
  emissions : ℚ
  cpu : ℚ
  memory : ℚ
  duration_seconds : Option ℚ
  tracking_enabled : Bool
deriving DecidableEq

/-- `NoOpTracker.stop`: zero for every measured quantity, the elapsed wall
time (zero when `start` was never called), `tracking_enabled` false. -/
def noOpTrackerStop (start_time : Option ℚ) (now : ℚ) : TrackerReading :=
  { emissions := 0, cpu := 0, memory := 0,
    duration_seconds := some (match start_time with | some t => now - t | none => 0),
    tracking_enabled := false }

/-- `ProfilingTracker.stop` as a function of its environment: whether the
CodeCarbon facility imported (`codecarbon_avail`, which also determines
`enabled`), the reading its own `stop()` returns (`none` models a Python
`None`, replaced by zero), whether `psutil` imports, and the cpu/memory
readings it would report. The returned dict has no duration key. -/
def profilingTrackerStop (codecarbon_avail : Bool) (codecarbon_reading : Option ℚ)
    (psutil_avail : Bool) (cpu_reading memory_reading : ℚ) : TrackerReading :=
  { emissions := if codecarbon_avail then codecarbon_reading.getD 0 else 0,
    cpu := if psutil_avail then cpu_reading else 0,
    memory := if psutil_avail then memory_reading else 0,
    duration_seconds := none,
    tracking_enabled := true }

end Tracking

namespace Progress

/-- The per-file percentages `Scanner.scan` reports from its
as-completed loop: `processed_count` is incremented only for a future that
returns without raising (`True` in `outcomes`), and each increment reports
`10 + int(processed_count / total_files * 80)`; a future that raises
reports nothing. The `int(...)` truncation of the non-negative float is
modelled by natural floor division. -/
def workerPercents (total_files : ℕ) : ℕ → List Bool → List ℕ
  | _, [] => []
  | processed, ok :: rest =>
      if ok then
        (10 + (processed + 1) * 80 / total_files) :: workerPercents total_files (processed + 1) rest
      else workerPercents total_files processed rest

/-- The full sequence of percentage values `Scanner.scan` passes to a
supplied progress callback: nothing when no file matched (the scan
returns before the first report), otherwise 10 (\"Scanning files...\"),
the per-file percentages in completion order, 95 (\"Finalizing scan
results...\") and 100 (\"Scan complete\"). -/
def progressPercents (total_files : ℕ) (outcomes : List Bool) : List ℕ :=
  if total_files = 0 then []
  else 10 :: (workerPercents total_files 0 outcomes ++ [95, 100])

end Progress

namespace PyDetect

/-- C1: a Python source file whose content fails to parse produces no
finding at all from `PythonViolationDetector.detect_all` — in particular
not the claimed single synthetic parse/syntax-error Finding: the
`except SyntaxError: pass` inside `detect_all` swallows the parse failure,
so `Scanner._scan_python`'s `except SyntaxError` branch (the only producer
of the synthetic `syntax_error` issue) is unreachable. -/
theorem detect_all_swallows_syntax_error : detectAllFromParse none = [] := rfl

/-- C3 counterexample: `while 1: pass` has a literal/constant truthy
condition, yet the detector emits zero unconditional-loop findings —
`visit_While` only recognises the constant `True` itself
(`test.value is True`), not other truthy constants. -/
theorem while_constant_one_not_flagged :
    (detectAll [Stmt.whileStmt 1 (Expr.constInt 1 1) [Stmt.passStmt 2]]).countP isInfLoopId = 0 := by
  decide

/-- C4: inside a loop, a membership test `x in y` is suppressed when `y`
was last assigned a set or dict literal or a `set()`/`dict()` constructor
call, and produces exactly one medium-severity `inefficient_lookup`
finding (at the test's line) when `y` was last assigned a list literal or
a `list()` call. -/
theorem membership_lookup_set_dict_suppressed_list_flagged :
    ((detectAll (lookupProgram (Expr.setLit 1 []))).countP (fun f => f.id == "inefficient_lookup") = 0) ∧
    ((detectAll (lookupProgram (Expr.dictLit 1 []))).countP (fun f => f.id == "inefficient_lookup") = 0) ∧
    ((detectAll (lookupProgram (Expr.call 1 "set" []))).countP (fun f => f.id == "inefficient_lookup") = 0) ∧
    ((detectAll (lookupProgram (Expr.call 1 "dict" []))).countP (fun f => f.id == "inefficient_lookup") = 0) ∧
    ((detectAll (lookupProgram (Expr.listLit 1 []))).filter (fun f => f.id == "inefficient_lookup") =
      [inefficientLookupFinding 3 "y"]) ∧
    ((detectAll (lookupProgram (Expr.call 1 "list" []))).filter (fun f => f.id == "inefficient_lookup") =
      [inefficientLookupFinding 3 "y"]) ∧
    (inefficientLookupFinding 3 "y").severity = "medium" := by
  decide

/-- C5: `s = ""` followed by `s = s + x` (or `s += x`) inside a loop is
flagged as string accumulation at the accumulating line, while the same
syntactic shape over a numeric accumulator (`s = 0` then `s = s + 1` /
`s += 1`) produces no such finding. -/
theorem string_accumulation_kind_inference :
    ((detectAll (accumAssignProgram (Expr.constStr 1 "") (Expr.name 3 "x"))).filter
        (fun f => f.id == "string_concatenation_in_loop") = [stringConcatFinding 3]) ∧
    ((detectAll (accumAssignProgram (Expr.constInt 1 0) (Expr.constInt 3 1))).countP
        (fun f => f.id == "string_concatenation_in_loop") = 0) ∧
    ((detectAll (accumAugProgram (Expr.constStr 1 "") (Expr.name 3 "x"))).filter
        (fun f => f.id == "string_concatenation_in_loop") = [stringConcatFinding 3]) ∧
    ((detectAll (accumAugProgram (Expr.constInt 1 0) (Expr.constInt 3 1))).countP
        (fun f => f.id == "string_concatenation_in_loop") = 0) := by
  decide

end PyDetect

namespace Tracking

/-- C8 counterexample: the dict returned by `ProfilingTracker.stop` carries
no duration key at all (even in the degraded, facility-unavailable
configuration), so the claimed common `stop()` record shape with a
duration field fails for the profiling variant. -/
theorem profiling_stop_has_no_duration :
    (profilingTrackerStop false none true 12 34).duration_seconds = none := rfl

/-- C8 (amended): both `stop()` implementations return emissions, cpu,
memory and `tracking_enabled`; the no-op variant additionally reports the
elapsed wall time and zero for every measured quantity, and the profiling
variant — constructible with the measurement facility unavailable —
reports zero emissions while still reporting cpu and memory, but omits
the duration. -/
theorem tracker_stop_contract (t now cpu mem : ℚ) :
    noOpTrackerStop (some t) now =
      { emissions := 0, cpu := 0, memory := 0,
        duration_seconds := some (now - t), tracking_enabled := false } ∧
    profilingTrackerStop false none true cpu mem =
      { emissions := 0, cpu := cpu, memory := mem,
        duration_seconds := none, tracking_enabled := true } :=
  ⟨rfl, rfl⟩

end Tracking

namespace Analyzer

lemma one_le_severityWeight (s : String) : 1 ≤ severityWeight s := by
  unfold severityWeight
  split_ifs <;> norm_num

lemma totalWeight_nonneg (issues : List ScanIssue) : 0 ≤ totalWeight issues := by
  refine List.sum_nonneg ?_
  intro x hx
  simp only [List.mem_map] at hx
  obtain ⟨i, _, rfl⟩ := hx
  exact le_trans zero_le_one (one_le_severityWeight _)

lemma totalWeight_pos (issues : List ScanIssue) (h : issues ≠ []) : 0 < totalWeight issues := by
  match issues with
  | [] => exact absurd rfl h
  | i :: rest =>
      have h1 : totalWeight (i :: rest) = severityWeight i.severity + totalWeight rest := by
        simp [totalWeight]
      rw [h1]
      have := one_le_severityWeight i.severity
      have := totalWeight_nonneg rest
      linarith

lemma sum_map_share (issues : List ScanIssue) (tw total : ℚ) :
    ((issues.map (fun i => severityWeight i.severity / tw * total)).sum) =
      totalWeight issues / tw * total := by
  induction issues with
  | nil => simp [totalWeight]
  | cons i rest ih =>
      simp only [List.map_cons, List.sum_cons, ih, totalWeight]
      ring

/-- C7: `get_per_line_emissions` partitions the total proportionally to
the severity-weight table (high=3, medium=2, low=1, default 1), the
assigned shares sum to the total for a non-empty issue list and a
non-zero total, a zero total sets every share to zero, and an empty
issue list yields the empty list. -/
theorem distribute_severity_weighted :
    (∀ (issues : List ScanIssue) (total : ℚ), issues ≠ [] → total ≠ 0 →
      ((get_per_line_emissions issues total).map (fun i => i.codebase_emissions) =
        issues.map (fun i => severityWeight i.severity / totalWeight issues * total)) ∧
      ((get_per_line_emissions issues total).map (fun i => i.codebase_emissions)).sum = total) ∧
    (∀ (issues : List ScanIssue), ∀ i ∈ get_per_line_emissions issues 0,
        i.codebase_emissions = 0) ∧
    (∀ total : ℚ, get_per_line_emissions [] total = []) := by
  refine ⟨?_, ?_, ?_⟩
  · intro issues total hne hz
    have htw : 0 < totalWeight issues := totalWeight_pos issues hne
    have hmap : (get_per_line_emissions issues total).map (fun i => i.codebase_emissions) =
        issues.map (fun i => severityWeight i.severity / totalWeight issues * total) := by
      unfold get_per_line_emissions
      rw [if_neg (by simp [hne, hz])]
      simp only [List.map_map]
      refine List.map_congr_left ?_
      intro i _
      simp [htw]
    refine ⟨hmap, ?_⟩
    rw [hmap, sum_map_share, div_mul_eq_mul_div, div_eq_iff (ne_of_gt htw)]
    ring
  · intro issues i hi
    unfold get_per_line_emissions at hi
    rw [if_pos (Or.inr rfl)] at hi
    simp only [List.mem_map] at hi
    obtain ⟨j, _, rfl⟩ := hi
    rfl
  · intro total
    unfold get_per_line_emissions
    split <;> simp

/-- C7 witness: a high- and a low-severity issue split a total of 8 into
shares (6 and 2) that sum back to 8. -/
theorem distribute_severity_weighted_witness :
    ([⟨"high", 0⟩, ⟨"low", 0⟩] : List ScanIssue) ≠ [] ∧ (8 : ℚ) ≠ 0 ∧
    ((get_per_line_emissions [⟨"high", 0⟩, ⟨"low", 0⟩] 8).map (fun i => i.codebase_emissions)).sum = 8 :=
  ⟨by simp, by norm_num,
   (distribute_severity_weighted.1 [⟨"high", 0⟩, ⟨"low", 0⟩] 8 (by simp) (by norm_num)).2⟩

/-- Monotonicity of the emission estimate in the line count. -/
lemma estimate_mono_lines (c : ℚ) (hc : 0 ≤ c) (m : ComplexityMetrics)
    (a b : ℕ) (hab : a ≤ b) :
    estimate_emissions c { m with lines_of_code := a } ≤
      estimate_emissions c { m with lines_of_code := b } := by
  have hab2 : (a : ℚ) ≤ (b : ℚ) := by exact_mod_cast hab
  unfold estimate_emissions calculate_complexity_score
  dsimp only
  apply max_le_max _ le_rfl
  apply mul_le_mul_of_nonneg_right _ hc
  gcongr <;> norm_num [baselinePer1000Lines, epsilonEmission]

/-- Monotonicity of the emission estimate in the cyclomatic complexity. -/
lemma estimate_mono_cyclomatic (c : ℚ) (hc : 0 ≤ c) (m : ComplexityMetrics)
    (a b : ℕ) (hab : a ≤ b) :
    estimate_emissions c { m with cyclomatic_complexity := a } ≤
      estimate_emissions c { m with cyclomatic_complexity := b } := by
  have hab2 : (a : ℚ) ≤ (b : ℚ) := by exact_mod_cast hab
  unfold estimate_emissions calculate_complexity_score
  dsimp only
  apply max_le_max _ le_rfl
  apply mul_le_mul_of_nonneg_right _ hc
  gcongr
  norm_num [baselinePer1000Lines, epsilonEmission]

/-- Monotonicity of the emission estimate in the loop-iteration estimate. -/
lemma estimate_mono_loops (c : ℚ) (hc : 0 ≤ c) (m : ComplexityMetrics)
    (a b : ℕ) (hab : a ≤ b) :
    estimate_emissions c { m with loop_iterations_estimate := a } ≤
      estimate_emissions c { m with loop_iterations_estimate := b } := by
  have hab2 : (a : ℚ) ≤ (b : ℚ) := by exact_mod_cast hab
  unfold estimate_emissions calculate_complexity_score
  dsimp only
  apply max_le_max _ le_rfl
  apply mul_le_mul_of_nonneg_right _ hc
  gcongr <;> norm_num [baselinePer1000Lines, epsilonEmission]

/-- Monotonicity of the emission estimate in the memory estimate. -/
lemma estimate_mono_memory (c : ℚ) (hc : 0 ≤ c) (m : ComplexityMetrics)
    (a b : ℚ) (hab : a ≤ b) :
    estimate_emissions c { m with memory_usage_estimate := a } ≤
      estimate_emissions c { m with memory_usage_estimate := b } := by
  unfold estimate_emissions calculate_complexity_score
  dsimp only
  apply max_le_max _ le_rfl
  apply mul_le_mul_of_nonneg_right _ hc
  have heps : (0 : ℚ) ≤ epsilonEmission := by norm_num [epsilonEmission]
  have h100 : a / 100 ≤ b / 100 := by linarith
  have hmem : a / 100 * epsilonEmission ≤ b / 100 * epsilonEmission :=
    mul_le_mul_of_nonneg_right h100 heps
  linarith

/-- The emission estimate never drops to or below zero: it is floored at
the positive epsilon. -/
lemma estimate_pos (c : ℚ) (m : ComplexityMetrics) : 0 < estimate_emissions c m := by
  have heps : (0 : ℚ) < epsilonEmission := by norm_num [epsilonEmission]
  unfold estimate_emissions
  exact lt_of_lt_of_le heps (le_max_right _ _)

/-- C6: with a non-negative calibration coefficient, `estimate_emissions`
is monotonically non-decreasing in the line count, the cyclomatic
complexity, the loop-iteration estimate and the memory estimate (the other
fields held fixed), and its result is always strictly positive. -/
theorem estimate_emissions_monotone_positive (c : ℚ) (hc : 0 ≤ c) (m : ComplexityMetrics) :
    (∀ a b : ℕ, a ≤ b →
      estimate_emissions c { m with lines_of_code := a } ≤
        estimate_emissions c { m with lines_of_code := b }) ∧
    (∀ a b : ℕ, a ≤ b →
      estimate_emissions c { m with cyclomatic_complexity := a } ≤
        estimate_emissions c { m with cyclomatic_complexity := b }) ∧
    (∀ a b : ℕ, a ≤ b →
      estimate_emissions c { m with loop_iterations_estimate := a } ≤
        estimate_emissions c { m with loop_iterations_estimate := b }) ∧
    (∀ a b : ℚ, a ≤ b →
      estimate_emissions c { m with memory_usage_estimate := a } ≤
        estimate_emissions c { m with memory_usage_estimate := b }) ∧
    0 < estimate_emissions c m :=
  ⟨estimate_mono_lines c hc m, estimate_mono_cyclomatic c hc m,
   estimate_mono_loops c hc m, estimate_mono_memory c hc m, estimate_pos c m⟩

/-- C6 witness: the theorem applied at coefficient 1 and a small concrete
metrics record, at line counts 3 and 5. -/
theorem estimate_emissions_monotone_positive_witness :
    (0 : ℚ) ≤ 1 ∧ (3 : ℕ) ≤ 5 ∧
    0 < estimate_emissions 1 ⟨10, 2, 1, 1, 0, 0, 10, 5, false, false⟩ ∧
    estimate_emissions 1 ⟨3, 2, 1, 1, 0, 0, 10, 5, false, false⟩ ≤
      estimate_emissions 1 ⟨5, 2, 1, 1, 0, 0, 10, 5, false, false⟩ :=
  ⟨by norm_num, by norm_num,
   (estimate_emissions_monotone_positive 1 (by norm_num) ⟨10, 2, 1, 1, 0, 0, 10, 5, false, false⟩).2.2.2.2,
   (estimate_emissions_monotone_positive 1 (by norm_num) ⟨3, 2, 1, 1, 0, 0, 10, 5, false, false⟩).1 3 5
     (by norm_num)⟩

end Analyzer

namespace Progress

lemma workerPercents_chain (total : ℕ) (htotal : 0 < total) :
    ∀ (outcomes : List Bool) (processed : ℕ), processed + outcomes.length ≤ total →
      List.Chain' (· ≤ ·)
        ((10 + processed * 80 / total) :: (workerPercents total processed outcomes ++ [95, 100])) := by
  intro outcomes
  induction outcomes with
  | nil =>
      intro processed hle
      simp only [workerPercents, List.nil_append]
      have h80 : processed * 80 / total ≤ 80 := by
        calc processed * 80 / total ≤ total * 80 / total :=
              Nat.div_le_div_right (Nat.mul_le_mul_right 80 (by simpa using hle))
          _ = 80 := Nat.mul_div_cancel_left 80 htotal
      refine List.chain'_cons.mpr ⟨by omega, ?_⟩
      exact List.chain'_cons.mpr ⟨by omega, List.chain'_singleton 100⟩
  | cons ok rest ih =>
      intro processed hle
      simp only [List.length_cons] at hle
      by_cases hok : ok
      · subst hok
        simp only [workerPercents, if_pos rfl, List.cons_append]
        refine List.chain'_cons.mpr ⟨?_, ?_⟩
        · have : processed * 80 ≤ (processed + 1) * 80 := by omega
          have := Nat.div_le_div_right (c := total) this
          omega
        · exact ih (processed + 1) (by omega)
      · simp only [workerPercents, if_neg hok]
        exact ih processed (by omega)

/-- C9: during a single scan (at most `total_files` futures, each yielding
at most one report), the percentage values passed to the progress callback
form a monotonically non-decreasing sequence, whatever the completion
order and however many workers raise. -/
theorem progress_percentages_monotone (total_files : ℕ) (outcomes : List Bool)
    (h : outcomes.length ≤ total_files) :
    List.Chain' (· ≤ ·) (progressPercents total_files outcomes) := by
  unfold progressPercents
  by_cases h0 : total_files = 0
  · simp [h0]
  · rw [if_neg h0]
    have := workerPercents_chain total_files (Nat.pos_of_ne_zero h0) outcomes 0 (by omega)
    simpa using this

/-- C9 witness: a 3-file scan whose second worker raises reports the
sequence 10, 36, 63, 95, 100. -/
theorem progress_percentages_monotone_witness :
    ([true, false, true] : List Bool).length ≤ 3 ∧
    List.Chain' (· ≤ ·) (progressPercents 3 [true, false, true]) :=
  ⟨by decide, progress_percentages_monotone 3 [true, false, true] (by decide)⟩

end Progress

namespace PyDetect

@[simp] lemma addViolation_currentDepth (st : VState) (f : Finding) :
    (addViolation st f).currentDepth = st.currentDepth := rfl

@[simp] lemma callEntry_currentDepth (line : Nat) (f : String) (st : VState) :
    (callEntry line f st).currentDepth = st.currentDepth := rfl

@[simp] lemma forEntry_currentDepth (line : Nat) (iter : Expr) (body : List Stmt) (st : VState) :
    (forEntry line iter body st).currentDepth = st.currentDepth + 1 := rfl

@[simp] lemma whileEntry_currentDepth (line : Nat) (test : Expr) (body : List Stmt) (st : VState) :
    (whileEntry line test body st).currentDepth = st.currentDepth + 1 := rfl

@[simp] lemma restoreLoop_currentDepth (p : Bool) (exit : VState) :
    (restoreLoop p exit).currentDepth = exit.currentDepth - 1 := rfl

@[simp] lemma popDepth_currentDepth (exit : VState) :
    (popDepth exit).currentDepth = exit.currentDepth - 1 := rfl

@[simp] lemma assignEntry_currentDepth (line : Nat) (target : String) (value : Expr) (st : VState) :
    (assignEntry line target value st).currentDepth = st.currentDepth := rfl

@[simp] lemma augAddEntry_currentDepth (line : Nat) (target : String) (value : Expr) (st : VState) :
    (augAddEntry line target value st).currentDepth = st.currentDepth := rfl

lemma visitExprs_depth : ∀ (es : List Expr) (st : VState),
    (visitExprs es st).currentDepth = st.currentDepth := by
  refine visitExprs.induct
    (fun e st => (visitExpr e st).currentDepth = st.currentDepth)
    (fun es st => (visitExprs es st).currentDepth = st.currentDepth)
    ?_ ?_ ?_ ?_ ?_ ?_ ?_ ?_ ?_ ?_ ?_ ?_ ?_ <;>
    intros <;>
    first
      | (simp only [visitExpr]; split <;> simp)
      | simp_all [visitExpr, visitExprs]

@[simp] lemma visitExpr_depth (e : Expr) (st : VState) :
    (visitExpr e st).currentDepth = st.currentDepth := by
  have h := visitExprs_depth [e] st
  simpa [visitExprs] using h

lemma visitStmts_depth : ∀ (ss : List Stmt) (st : VState),
    (visitStmts ss st).currentDepth = st.currentDepth := by
  refine visitStmts.induct
    (fun s st => (visitStmt s st).currentDepth = st.currentDepth)
    (fun ss st => (visitStmts ss st).currentDepth = st.currentDepth)
    ?_ ?_ ?_ ?_ ?_ ?_ ?_ ?_ ?_ <;>
    intros <;> simp_all [visitStmt, visitStmts]

@[simp] lemma visitStmt_depth (s : Stmt) (st : VState) :
    (visitStmt s st).currentDepth = st.currentDepth := by
  have h := visitStmts_depth [s] st
  simpa [visitStmts] using h

end PyDetect

namespace PyDetect

lemma filter_flatMap_nil {α : Type} (p : Finding → Bool) (g : α → List Finding)
    (h : ∀ a, (g a).filter p = []) : ∀ l : List α, (l.flatMap g).filter p = [] := by
  intro l
  induction l with
  | nil => rfl
  | cons a as ih => simp [List.filter_append, h, ih]

lemma filter_lookupFindingOf (p : Finding → Bool)
    (hp : ∀ l n, p (inefficientLookupFinding l n) = false)
    (vt : List (String × String)) (e : Expr) : (lookupFindingOf vt e).filter p = [] := by
  cases e with
  | compareIn line neg l c =>
      cases c <;> try rfl
      simp only [lookupFindingOf]
      split <;> simp [hp]
  | constInt l v => rfl
  | constStr l v => rfl
  | constBool l v => rfl
  | name l n => rfl
  | binAdd l a b => rfl
  | call l f args => rfl
  | listLit l es => rfl
  | setLit l es => rfl
  | dictLit l es => rfl

lemma filter_ioFindingOf (p : Finding → Bool)
    (hp : ∀ l f, p (ioInLoopFinding l f) = false) (e : Expr) :
    (ioFindingOf e).filter p = [] := by
  cases e <;> try rfl
  simp only [ioFindingOf]
  split <;> simp [hp]

lemma filter_redundantCompFindingOf (p : Finding → Bool)
    (hp : ∀ l f, p (redundantCompFinding l f) = false) (e : Expr) :
    (redundantCompFindingOf e).filter p = [] := by
  cases e <;> try rfl
  simp only [redundantCompFindingOf]
  split <;> simp [hp]

lemma filter_callFindings (p : Finding → Bool)
    (hb : ∀ l f, p (blockingIoFinding l f) = false)
    (hr : ∀ l, p (resourceLeakFinding l) = false)
    (hpr : ∀ l, p (printFinding l) = false)
    (hd : ∀ l, p (deepcopyFinding l) = false)
    (hs : ∀ l, p (processSpawnFinding l) = false)
    (line : Nat) (f : String) : (callFindings line f).filter p = [] := by
  simp [callFindings, List.filter_append, apply_ite (List.filter p), hb, hr, hpr, hd, hs]

lemma filter_unusedVariableFindings (p : Finding → Bool)
    (hp : ∀ l v, p (unusedVariableFinding l v) = false)
    (used : List String) (unused : List (String × Nat)) :
    (unusedVariableFindings used unused).filter p = [] := by
  refine filter_flatMap_nil p _ ?_ unused
  intro a
  split <;> simp [hp]

end PyDetect

namespace PyDetect

lemma visitExprs_filter (p : Finding → Bool)
    (hmagic : ∀ l v, p (magicNumberFinding l v) = false)
    (hcall : ∀ l f, (callFindings l f).filter p = []) :
    ∀ (es : List Expr) (st : VState),
      ((visitExprs es st).violations).filter p = st.violations.filter p := by
  refine visitExprs.induct
    (fun e st => ((visitExpr e st).violations).filter p = st.violations.filter p)
    (fun es st => ((visitExprs es st).violations).filter p = st.violations.filter p)
    ?_ ?_ ?_ ?_ ?_ ?_ ?_ ?_ ?_ ?_ ?_ ?_ ?_ <;>
    intros <;>
    first
      | (simp only [visitExpr]; split <;> simp [addViolation, List.filter_append, hmagic])
      | (simp_all [visitExpr, visitExprs, callEntry, List.filter_append, hcall]; done)
      | (simp_all [visitExpr, visitExprs, callEntry, List.filter_append]; exact hcall _ _)

lemma visitExpr_filter (p : Finding → Bool)
    (hmagic : ∀ l v, p (magicNumberFinding l v) = false)
    (hcall : ∀ l f, (callFindings l f).filter p = []) (e : Expr) (st : VState) :
    ((visitExpr e st).violations).filter p = st.violations.filter p := by
  have h := visitExprs_filter p hmagic hcall [e] st
  simpa [visitExprs] using h

end PyDetect

namespace PyDetect

lemma isInfLoopId_infiniteLoopFinding (l : Nat) : isInfLoopId (infiniteLoopFinding l) = true := rfl

lemma visitExpr_filter_inf (e : Expr) (st : VState) :
    ((visitExpr e st).violations).filter isInfLoopId = st.violations.filter isInfLoopId :=
  visitExpr_filter isInfLoopId (fun _ _ => rfl)
    (filter_callFindings isInfLoopId (fun _ _ => rfl) (fun _ => rfl) (fun _ => rfl)
      (fun _ => rfl) (fun _ => rfl)) e st

lemma filter_inefficientLookupFindings (p : Finding → Bool)
    (hp : ∀ l n, p (inefficientLookupFinding l n) = false)
    (vt : List (String × String)) (w : List Expr) :
    (inefficientLookupFindings vt w).filter p = [] :=
  filter_flatMap_nil p _ (filter_lookupFindingOf p hp vt) w

lemma filter_ioInLoopFindings (p : Finding → Bool)
    (hp : ∀ l f, p (ioInLoopFinding l f) = false) (w : List Expr) :
    (ioInLoopFindings w).filter p = [] :=
  filter_flatMap_nil p _ (filter_ioFindingOf p hp) w

lemma filter_redundantComputationFindings (p : Finding → Bool)
    (hp : ∀ l f, p (redundantCompFinding l f) = false) (w : List Expr) :
    (redundantComputationFindings w).filter p = [] :=
  filter_flatMap_nil p _ (filter_redundantCompFindingOf p hp) w

lemma infId_n2Finding (d l : Nat) : isInfLoopId (n2Finding d l) = false := rfl

lemma infId_whileNestingFinding (d l : Nat) : isInfLoopId (whileNestingFinding d l) = false := rfl

lemma infId_rangeLenFinding (l : Nat) : isInfLoopId (rangeLenFinding l) = false := rfl

lemma infId_stringConcatFinding (l : Nat) : isInfLoopId (stringConcatFinding l) = false := rfl

lemma infId_infiniteLoopFinding (l : Nat) : isInfLoopId (infiniteLoopFinding l) = true := rfl

lemma visitStmts_filter_inf :
    ∀ (ss : List Stmt) (st : VState),
      ((visitStmts ss st).violations).filter isInfLoopId =
        st.violations.filter isInfLoopId ++ stmtsInfFindings ss := by
  refine visitStmts.induct
    (fun s st => ((visitStmt s st).violations).filter isInfLoopId =
        st.violations.filter isInfLoopId ++ s.infFindings)
    (fun ss st => ((visitStmts ss st).violations).filter isInfLoopId =
        st.violations.filter isInfLoopId ++ stmtsInfFindings ss)
    ?_ ?_ ?_ ?_ ?_ ?_ ?_ ?_ ?_ <;>
    intros <;>
    simp_all [visitStmt, visitStmts, restoreLoop, popDepth, forEntry, whileEntry,
      assignEntry, augAddEntry, visitExpr_filter_inf, List.filter_append,
      filter_inefficientLookupFindings isInfLoopId (fun _ _ => rfl),
      filter_ioInLoopFindings isInfLoopId (fun _ _ => rfl),
      filter_redundantComputationFindings isInfLoopId (fun _ _ => rfl),
      apply_ite (List.filter isInfLoopId),
      infId_n2Finding, infId_whileNestingFinding, infId_rangeLenFinding,
      infId_stringConcatFinding, infId_infiniteLoopFinding,
      Stmt.infFindings, stmtsInfFindings]

end PyDetect

namespace PyDetect

lemma n2Id_n2Finding (d l : Nat) : isN2Id (n2Finding d l) = true := rfl

lemma n2Id_whileNestingFinding (d l : Nat) : isN2Id (whileNestingFinding d l) = false := rfl

lemma n2Id_rangeLenFinding (l : Nat) : isN2Id (rangeLenFinding l) = false := rfl

lemma n2Id_stringConcatFinding (l : Nat) : isN2Id (stringConcatFinding l) = false := rfl

lemma n2Id_infiniteLoopFinding (l : Nat) : isN2Id (infiniteLoopFinding l) = false := rfl

lemma visitExpr_filter_n2 (e : Expr) (st : VState) :
    ((visitExpr e st).violations).filter isN2Id = st.violations.filter isN2Id :=
  visitExpr_filter isN2Id (fun _ _ => rfl)
    (filter_callFindings isN2Id (fun _ _ => rfl) (fun _ => rfl) (fun _ => rfl)
      (fun _ => rfl) (fun _ => rfl)) e st

lemma visitStmts_filter_n2 :
    ∀ (ss : List Stmt) (st : VState),
      ((visitStmts ss st).violations).filter isN2Id =
        st.violations.filter isN2Id ++ stmtsN2Findings st.currentDepth ss := by
  refine visitStmts.induct
    (fun s st => ((visitStmt s st).violations).filter isN2Id =
        st.violations.filter isN2Id ++ s.n2Findings st.currentDepth)
    (fun ss st => ((visitStmts ss st).violations).filter isN2Id =
        st.violations.filter isN2Id ++ stmtsN2Findings st.currentDepth ss)
    ?_ ?_ ?_ ?_ ?_ ?_ ?_ ?_ ?_ <;>
    intros <;>
    simp_all [visitStmt, visitStmts, restoreLoop, popDepth, forEntry, whileEntry,
      assignEntry, augAddEntry, visitExpr_filter_n2, List.filter_append,
      filter_inefficientLookupFindings isN2Id (fun _ _ => rfl),
      filter_ioInLoopFindings isN2Id (fun _ _ => rfl),
      filter_redundantComputationFindings isN2Id (fun _ _ => rfl),
      apply_ite (List.filter isN2Id),
      n2Id_n2Finding, n2Id_whileNestingFinding, n2Id_rangeLenFinding,
      n2Id_stringConcatFinding, n2Id_infiniteLoopFinding,
      Stmt.n2Findings, stmtsN2Findings]

lemma detectAll_filter_inf (moduleBody : List Stmt) :
    (detectAll moduleBody).filter isInfLoopId = stmtsInfFindings moduleBody := by
  simp [detectAll, List.filter_append, visitStmts_filter_inf, initState,
    filter_unusedVariableFindings isInfLoopId (fun _ _ => rfl)]

lemma detectAll_filter_n2 (moduleBody : List Stmt) :
    (detectAll moduleBody).filter isN2Id = stmtsN2Findings 0 moduleBody := by
  have h := visitStmts_filter_n2 moduleBody initState
  simp only [initState] at h
  simp [detectAll, List.filter_append, h, initState,
    filter_unusedVariableFindings isN2Id (fun _ _ => rfl)]

end PyDetect

namespace PyDetect

lemma n2_mem_nestedFors : ∀ (k D l : Nat), 2 ≤ D + k + 1 →
    n2Finding (D + k + 1) (l + k) ∈ stmtsN2Findings D (nestedFors (k + 1) l) := by
  intro k
  induction k with
  | zero =>
      intro D l h
      simp only [nestedFors, stmtsN2Findings, Stmt.n2Findings, Nat.add_zero]
      simp [h]
  | succ k ih =>
      intro D l h
      have h2 : 2 ≤ D + 1 + k + 1 := by omega
      have hmem := ih (D + 1) (l + 1) h2
      have e1 : D + (k + 1) + 1 = D + 1 + k + 1 := by omega
      have e2 : l + (k + 1) = l + 1 + k := by omega
      rw [e1, e2]
      simp only [nestedFors, stmtsN2Findings, Stmt.n2Findings, List.append_nil,
        List.mem_append] at hmem ⊢
      exact Or.inr hmem

/-- C2: for every nesting depth `d ≥ 2` of nested counted `for` loops, the
innermost loop (line `d` of the family) is reported by a
`no_n2_algorithms` finding whose severity is `major` at `d = 2` and
`critical` at `d ≥ 3`, and whose message embeds the depth `d` as the
exponent of the stated complexity. -/
theorem nested_for_innermost_severity (d : Nat) (hd : 2 ≤ d) :
    (⟨"no_n2_algorithms", d, if 3 ≤ d then "critical" else "major",
      "Nesting depth " ++ toString d ++ ": O(n^" ++ toString d ++ ") complexity detected."⟩ :
        Finding) ∈ detectAll (nestedFors d 1) := by
  obtain ⟨k, rfl⟩ : ∃ k, d = k + 1 := ⟨d - 1, by omega⟩
  have h := n2_mem_nestedFors k 0 1 (by omega)
  have e1 : 0 + k + 1 = k + 1 := by omega
  have e2 : 1 + k = k + 1 := by omega
  rw [e1, e2] at h
  have hmem : n2Finding (k + 1) (k + 1) ∈ (detectAll (nestedFors (k + 1) 1)).filter isN2Id := by
    rw [detectAll_filter_n2]
    exact h
  exact List.mem_of_mem_filter hmem

/-- C2 witness: at depth 3, the finding for line 3 is critical with the
exponent 3 in the message. -/
theorem nested_for_innermost_severity_witness :
    2 ≤ 3 ∧
    (⟨"no_n2_algorithms", 3, if 3 ≤ 3 then "critical" else "major",
      "Nesting depth " ++ toString 3 ++ ": O(n^" ++ toString 3 ++ ") complexity detected."⟩ :
        Finding) ∈ detectAll (nestedFors 3 1) :=
  ⟨by norm_num, nested_for_innermost_severity 3 (by norm_num)⟩

/-- C3 (amended): for any file in which the `while` loops whose condition
is the literal `True` consist of exactly one loop, at line `line`, the
detector output contains exactly one unconditional-loop finding, at that
line, with severity `critical` — independent of the loop's nesting depth
and of nesting elsewhere in the file. A `while` over any other truthy
constant (e.g. `while 1`) is not recognised (see the counterexample). -/
theorem unconditional_loop_exactly_once (moduleBody : List Stmt) (line : Nat)
    (h : stmtsInfFindings moduleBody = [infiniteLoopFinding line]) :
    (detectAll moduleBody).filter isInfLoopId = [infiniteLoopFinding line] ∧
    (infiniteLoopFinding line).severity = "critical" ∧
    (infiniteLoopFinding line).line = line := by
  rw [detectAll_filter_inf, h]
  exact ⟨rfl, rfl, rfl⟩

/-- C3 witness: a `while True` nested under two `for` loops (where the
file also reports nested-loop and while-nesting findings) still yields
exactly one unconditional-loop finding, at its own line 3. -/
theorem unconditional_loop_exactly_once_witness :
    stmtsInfFindings
        [Stmt.forStmt 1 "i" (Expr.name 1 "xs")
          [Stmt.forStmt 2 "j" (Expr.name 2 "ys")
            [Stmt.whileStmt 3 (Expr.constBool 3 true) [Stmt.passStmt 4]]]] =
      [infiniteLoopFinding 3] ∧
    (detectAll
        [Stmt.forStmt 1 "i" (Expr.name 1 "xs")
          [Stmt.forStmt 2 "j" (Expr.name 2 "ys")
            [Stmt.whileStmt 3 (Expr.constBool 3 true) [Stmt.passStmt 4]]]]).filter isInfLoopId =
      [infiniteLoopFinding 3] :=
  ⟨by decide,
   (unconditional_loop_exactly_once
      [Stmt.forStmt 1 "i" (Expr.name 1 "xs")
        [Stmt.forStmt 2 "j" (Expr.name 2 "ys")
          [Stmt.whileStmt 3 (Expr.constBool 3 true) [Stmt.passStmt 4]]]] 3 (by decide)).1⟩

/-- C10: a `for` loop nested inside an `if` that is itself inside a `for`
loop is reported at depth 3 with severity `critical` (and is the only
nested-loop finding of the file), because `visit_If` increments the same
nesting-depth counter as the loop visitors. -/
theorem loop_in_conditional_in_loop_depth3 (l1 l2 l3 l4 : Nat) :
    (detectAll (forIfFor l1 l2 l3 l4)).filter isN2Id = [n2Finding 3 l3] ∧
    (n2Finding 3 l3).severity = "critical" ∧
    (n2Finding 3 l3).message = nestingMessage 3 := by
  refine ⟨?_, rfl, rfl⟩
  rw [detectAll_filter_n2]
  simp [forIfFor, stmtsN2Findings, Stmt.n2Findings]

end PyDetect
